import Mathlib

/-
  Shallow embedding of the Script2Prompt application
  (src/App.tsx, src/services/geminiService.ts, src/unnamed/part_000
  = exportService, src/unnamed/part_001 = InputSection,
  src/unnamed/part_002 = types).

  TypeScript optional fields are embedded as `Option`; the optional
  boolean `isRegenerating?` is embedded as `Bool` because every reader
  of the field in the source treats a missing field and `false`
  identically (JS falsiness), and every writer assigns an explicit
  boolean.  JS numbers that the source only ever holds as non-negative
  integers are embedded as `Nat`.
-/

namespace Script2Prompt

/-- PromptSet from src/unnamed/part_002 (types): bilingual quadruple. -/
structure PromptSet where
  t2iEn : String
  t2iZh : String
  i2vEn : String
  i2vZh : String
deriving DecidableEq

/-- SceneData from src/unnamed/part_002 (types). -/
structure SceneData where
  id : String
  originalScript : String
  imageCount : Nat
  aiSuggestedCount : Option Nat
  reasoningEn : String
  reasoningZh : String
  prompts : List PromptSet
  isRegenerating : Bool
deriving DecidableEq

/-- GenerationSettings from src/unnamed/part_002 (types). -/
structure GenerationSettings where
  defaultImageCount : Nat
  artStyle : String
  aspectRatio : String
deriving DecidableEq

/-- ScriptRow from src/unnamed/part_002 (types). -/
structure ScriptRow where
  id : String
  timestamp : String
  content : String
  duration : Option String
deriving DecidableEq

/-- The `source` tag of a HistoryItem (types). -/
inductive HistorySource where
  | script
  | prompt
  | all
  | auto
deriving DecidableEq

/-- HistoryItem from src/unnamed/part_002 (types). -/
structure HistoryItem where
  id : String
  source : HistorySource
  timestamp : Nat
  rows : List ScriptRow
  settings : GenerationSettings
  scenes : List SceneData
deriving DecidableEq

/-- The slot-fallback expression
`scene.prompts[i] || scene.prompts[scene.prompts.length - 1] || scene.prompts[0]`,
which appears verbatim at four sites: SceneCard (App.tsx bundle, display),
exportToTxt, exportToDocx and exportToPdf (src/unnamed/part_000).
A JS out-of-range index yields `undefined` (embedded as `none`); an
in-range element is an object, hence truthy.  For an empty list the JS
index `length - 1` is `-1`, which also yields `undefined`, matching Nat
subtraction `0 - 1 = 0` on the empty list (both give `none`). -/
def slotPrompt (prompts : List PromptSet) (i : Nat) : Option PromptSet :=
  match prompts.get? i with
  | some p => some p
  | none =>
    match prompts.get? (prompts.length - 1) with
    | some p => some p
    | none => prompts.get? 0

/-- One scene element of the model reply, with exactly the fields of the
response schema `sceneSchema.items` in src/services/geminiService.ts
(originalScript, suggestedImageCount, reasoningEn, reasoningZh, prompts).
`suggestedImageCount` is `Option Nat` so that the JS falsy cases the code
guards against (`scene.suggestedImageCount || 1`: absent, or 0) are
representable; `prompts` is `Option (List PromptSet)` so that the guard
`scene.prompts || []` is representable. -/
structure SceneReply where
  originalScript : String
  suggestedImageCount : Option Nat
  reasoningEn : String
  reasoningZh : String
  prompts : Option (List PromptSet)
deriving DecidableEq

/-- The sentinel PromptSet substituted by generateFullScriptAnalysis when
the model returned no prompts (src/services/geminiService.ts line 109). -/
def errorPromptSet : PromptSet :=
  { t2iEn := "Error generating prompt"
    t2iZh := "生成提示词错误"
    i2vEn := "Error"
    i2vZh := "错误" }

/-- The effective image count computed per scene element
(src/services/geminiService.ts lines 98-100):
`settings.defaultImageCount === 0 ? (scene.suggestedImageCount || 1) : settings.defaultImageCount`.
`suggestedImageCount || 1` is 1 exactly when the field is absent or 0
(the JS falsy integer cases). -/
def finalImageCount (settings : GenerationSettings) (sc : SceneReply) : Nat :=
  if settings.defaultImageCount = 0 then
    match sc.suggestedImageCount with
    | some n => if n = 0 then 1 else n
    | none => 1
  else settings.defaultImageCount

/-- The per-scene-element body of the `parsed.scenes.map` in
generateFullScriptAnalysis (src/services/geminiService.ts lines 96-119).
The produced object is
`{ id, imageCount: finalCount, aiSuggestedCount: scene.suggestedImageCount, ...scene, prompts }`:
since a schema-shaped scene element carries only the keys
originalScript, suggestedImageCount, reasoningEn, reasoningZh and
prompts, the spread overrides none of id / imageCount /
aiSuggestedCount, and `prompts` (reassigned after the spread) is the
sentinel-substituted list.  `now` stands for the `Date.now()` value used
to build the fresh id `scene-${Date.now()}-${index}`. -/
def reconcileScene (settings : GenerationSettings) (now index : Nat)
    (sc : SceneReply) : SceneData :=
  let finalCount := finalImageCount settings sc
  let prompts0 := sc.prompts.getD []
  let prompts := if prompts0.length = 0 then [errorPromptSet] else prompts0
  { id := "scene-" ++ toString now ++ "-" ++ toString index
    originalScript := sc.originalScript
    imageCount := finalCount
    aiSuggestedCount := sc.suggestedImageCount
    reasoningEn := sc.reasoningEn
    reasoningZh := sc.reasoningZh
    prompts := prompts
    isRegenerating := false }

/-- Failure of the full-generation reconciler: the single
`throw new Error("Invalid response structure from AI")` at
src/services/geminiService.ts line 93. -/
inductive GenError where
  | invalidStructure
deriving DecidableEq

/-- The shape of the `scenes` field of the parsed top-level reply as
discriminated by `!parsed.scenes || !Array.isArray(parsed.scenes)`
(src/services/geminiService.ts line 92): the key may be absent, present
but not an array (every falsy value is also not an array, so both fall
to the same branch), or an array of schema-shaped scene elements. -/
inductive ScenesField where
  | absent
  | nonArray
  | array (scenes : List SceneReply)
deriving DecidableEq

/-- generateFullScriptAnalysis after `JSON.parse`
(src/services/geminiService.ts lines 90-119): throw on a missing or
non-array `scenes` field, otherwise map every element through the
reconciler, passing the element index. -/
def generateFullScriptAnalysis (settings : GenerationSettings) (now : Nat)
    (field : ScenesField) : Except GenError (List SceneData) :=
  match field with
  | .array scenes =>
    .ok (scenes.enum.map fun p => reconcileScene settings now p.1 p.2)
  | _ => .error .invalidStructure

/-- One line of the script text built by handleSubmit
(src/unnamed/part_001 lines 148-151):
`` const time = r.timestamp.trim() ? `[${r.timestamp}] ` : ''; return `${time}${r.content}` ``. -/
def renderScriptRow (r : ScriptRow) : String :=
  (if r.timestamp.trim = "" then "" else "[" ++ r.timestamp ++ "] ") ++ r.content

/-- The per-line view of the script text built by handleSubmit
(src/unnamed/part_001 lines 146-152): keep the rows whose trimmed
content is non-empty, render each. -/
def scriptTextLines (rows : List ScriptRow) : List String :=
  (rows.filter fun r => r.content.trim != "").map renderScriptRow

/-- The script text of handleSubmit: the rendered rows joined with
newlines (`.join('\n')`). -/
def buildScriptText (rows : List ScriptRow) : String :=
  String.intercalate "\n" (scriptTextLines rows)

/-- Spec-side row renderer, following the spec words of §4.1: a row is
rendered as `[timestamp] content` when a timestamp is present and as the
bare content otherwise.  Stated separately from `renderScriptRow` (the
source transcription) so their agreement is a theorem. -/
def specRenderRow (r : ScriptRow) : String :=
  if r.timestamp.trim = "" then r.content else "[" ++ r.timestamp ++ "] " ++ r.content

/-- The HistoryItem built by saveToHistory (src/App.tsx lines 53-60);
`now` stands for `Date.now()`, used for both the id and the timestamp. -/
def mkHistoryItem (now : Nat) (source : HistorySource) (rows : List ScriptRow)
    (settings : GenerationSettings) (scenes : List SceneData) : HistoryItem :=
  { id := toString now
    source := source
    timestamp := now
    rows := rows
    settings := settings
    scenes := scenes }

/-- The history update of saveToHistory (src/App.tsx line 62):
`[newItem, ...history].slice(0, 30)`. -/
def saveToHistory (history : List HistoryItem) (item : HistoryItem) :
    List HistoryItem :=
  (item :: history).take 30

/-- The state written back by loadHistoryItem in its confirmed branch
(src/App.tsx lines 76-79): rows, settings, activeSettings and scenes are
replaced wholesale from the item. -/
structure RestoredState where
  rows : List ScriptRow
  settings : GenerationSettings
  activeSettings : GenerationSettings
  scenes : List SceneData
deriving DecidableEq

/-- loadHistoryItem (src/App.tsx lines 74-92), confirmed branch. -/
def loadHistoryItem (item : HistoryItem) : RestoredState :=
  { rows := item.rows
    settings := item.settings
    activeSettings := item.settings
    scenes := item.scenes }

/-- The startup history load (src/App.tsx lines 36-45): `history` starts
as `[]`; if a stored payload exists, `JSON.parse` runs inside
`try`/`catch`, so a parse failure leaves `history` at `[]`.  `stored`
stands for `localStorage.getItem('script2prompt_history')` and `parse`
for `JSON.parse` on the stored payload. -/
def loadHistoryOnMount (stored : Option String)
    (parse : String → Except String (List HistoryItem)) : List HistoryItem :=
  match stored with
  | none => []
  | some s =>
    match parse s with
    | .ok h => h
    | .error _ => []

/-- The write path of saveToHistory (src/App.tsx lines 62-64):
`setHistory(updatedHistory)` runs first, then
`localStorage.setItem(...)` with no surrounding `try`/`catch` in the
history layer; the pair returns the new in-memory history and the raw
outcome of the store write, an error meaning the exception propagates to
the caller.  `setItem` stands for `localStorage.setItem` applied to the
serialized payload and `serialize` for `JSON.stringify`. -/
def saveToHistoryPersist (setItem : String → Except String Unit)
    (serialize : List HistoryItem → String)
    (history : List HistoryItem) (item : HistoryItem) :
    List HistoryItem × Except String Unit :=
  let updated := saveToHistory history item
  (updated, setItem (serialize updated))

/-- The write path of deleteHistoryItem (src/App.tsx lines 67-72):
filter out the id, `setHistory`, then an unguarded
`localStorage.setItem`. -/
def deleteHistoryItemPersist (setItem : String → Except String Unit)
    (serialize : List HistoryItem → String)
    (history : List HistoryItem) (id : String) :
    List HistoryItem × Except String Unit :=
  let updated := history.filter fun i => i.id != id
  (updated, setItem (serialize updated))

/-- The net effect of handleRegenerateScene when the regeneration call
throws (src/App.tsx lines 140-163): first every scene with the target id
gets `isRegenerating: true` (line 143), then the `catch` block maps the
same scenes with `isRegenerating: false` (line 161); no other field is
written on the failure path. -/
def regenerateSceneFailure (scenes : List SceneData) (tid : String) :
    List SceneData :=
  let marked := scenes.map fun s =>
    if s.id = tid then { s with isRegenerating := true } else s
  marked.map fun s =>
    if s.id = tid then { s with isRegenerating := false } else s

/-- handleUpdateImageCount (src/App.tsx lines 165-167):
`prev.map(s => s.id === id ? { ...s, imageCount: count } : s)`. -/
def handleUpdateImageCount (scenes : List SceneData) (tid : String)
    (count : Nat) : List SceneData :=
  scenes.map fun s => if s.id = tid then { s with imageCount := count } else s

/-- Concrete fixture: a PromptSet. -/
def ps0 : PromptSet :=
  { t2iEn := "a", t2iZh := "b", i2vEn := "c", i2vZh := "d" }

/-- Concrete fixture: a scene whose imageCount exceeds prompts.length. -/
def scene0 : SceneData :=
  { id := "s1", originalScript := "o", imageCount := 2
    aiSuggestedCount := some 2, reasoningEn := "re", reasoningZh := "rz"
    prompts := [ps0], isRegenerating := false }

/-- Concrete fixture: a second scene with a different id. -/
def sceneA : SceneData :=
  { id := "s2", originalScript := "o2", imageCount := 1
    aiSuggestedCount := none, reasoningEn := "e2", reasoningZh := "z2"
    prompts := [ps0], isRegenerating := false }

/-- Concrete fixture: the default settings of src/App.tsx lines 9-13. -/
def settings0 : GenerationSettings :=
  { defaultImageCount := 0, artStyle := "Cinematic Realistic", aspectRatio := "16:9" }

/-- Concrete fixture: settings forcing two images per scene. -/
def settings2 : GenerationSettings :=
  { defaultImageCount := 2, artStyle := "Cinematic Realistic", aspectRatio := "16:9" }

/-- Concrete fixture: a schema-shaped model reply scene element. -/
def reply0 : SceneReply :=
  { originalScript := "A hero walks into a bar."
    suggestedImageCount := some 3
    reasoningEn := "re", reasoningZh := "rz"
    prompts := some [ps0] }

/-- Concrete fixture: a history item. -/
def item0 : HistoryItem :=
  { id := "0", source := .auto, timestamp := 0, rows := []
    settings := settings0, scenes := [] }

/-- C1: for every scene with a non-empty prompts list and every slot index
`i < imageCount`, the slot-fallback selection yields a defined PromptSet:
it equals `prompts[i]` when `i < prompts.length` and equals the last
element of `prompts` whenever `i ≥ prompts.length`. -/
theorem slot_fallback_total (s : SceneData) (i : Nat)
    (hne : s.prompts ≠ []) (_hi : i < s.imageCount) :
    ∃ p : PromptSet, slotPrompt s.prompts i = some p ∧
      (∀ h : i < s.prompts.length, p = s.prompts.get ⟨i, h⟩) ∧
      (s.prompts.length ≤ i → p = s.prompts.getLast hne) := by
  by_cases hlt : i < s.prompts.length
  · refine ⟨s.prompts.get ⟨i, hlt⟩, ?_, ?_, ?_⟩
    · simp [slotPrompt, List.getElem?_eq_getElem hlt, List.get_eq_getElem]
    · intro h; rfl
    · intro hle; omega
  · push_neg at hlt
    have h0 : 0 < s.prompts.length := List.length_pos.mpr hne
    have hl : s.prompts.length - 1 < s.prompts.length := by omega
    refine ⟨s.prompts.getLast hne, ?_, ?_, ?_⟩
    · have hnone : s.prompts[i]? = none := by
        simp [List.getElem?_eq_none_iff]
        omega
      simp [slotPrompt, hnone, List.getElem?_eq_getElem hl,
        List.getLast_eq_getElem]
    · intro h; omega
    · intro _; rfl

theorem slot_fallback_total_witness :
    ∃ p : PromptSet, slotPrompt scene0.prompts 1 = some p ∧
      (∀ h : 1 < scene0.prompts.length, p = scene0.prompts.get ⟨1, h⟩) ∧
      (scene0.prompts.length ≤ 1 → p = scene0.prompts.getLast (by decide)) :=
  slot_fallback_total scene0 1 (by decide) (by decide)

/-- C2: the reconciler sets imageCount to the model's suggested count when
`defaultImageCount = 0` (1 when the suggestion is absent or falsy) and to
`defaultImageCount` verbatim otherwise, independently of the reply's
prompts and, in the non-zero case, of the suggestion. -/
theorem reconciler_imageCount (settings : GenerationSettings) (now index : Nat)
    (sc : SceneReply) :
    ((reconcileScene settings now index sc).imageCount =
      if settings.defaultImageCount = 0 then
        (match sc.suggestedImageCount with
         | some n => if n = 0 then 1 else n
         | none => 1)
      else settings.defaultImageCount) ∧
    (∀ ps : Option (List PromptSet),
      (reconcileScene settings now index { sc with prompts := ps }).imageCount =
        (reconcileScene settings now index sc).imageCount) ∧
    (settings.defaultImageCount ≠ 0 →
      ∀ sugg : Option Nat,
        (reconcileScene settings now index
          { sc with suggestedImageCount := sugg }).imageCount =
          settings.defaultImageCount) := by
  refine ⟨rfl, fun ps => rfl, fun h sugg => ?_⟩
  simp [reconcileScene, finalImageCount, h]

theorem reconciler_imageCount_witness :
    (reconcileScene settings2 0 0
      { reply0 with suggestedImageCount := some 3 }).imageCount = 2 :=
  (reconciler_imageCount settings2 0 0 reply0).2.2 (by decide) (some 3)

/-- C3: the reconciler takes the reply's prompts verbatim when non-empty
and substitutes the single bilingual sentinel when the list is empty or
absent, so every produced Scene has a non-empty prompts list. -/
theorem reconciler_prompts (settings : GenerationSettings) (now index : Nat)
    (sc : SceneReply) :
    (match sc.prompts with
     | some (p :: ps) => (reconcileScene settings now index sc).prompts = p :: ps
     | some [] => (reconcileScene settings now index sc).prompts = [errorPromptSet]
     | none => (reconcileScene settings now index sc).prompts = [errorPromptSet]) ∧
    (reconcileScene settings now index sc).prompts ≠ [] := by
  constructor
  · rcases hp : sc.prompts with _ | (_ | ⟨p, ps⟩) <;>
      simp [reconcileScene, hp]
  · rcases hp : sc.prompts with _ | (_ | ⟨p, ps⟩) <;>
      simp [reconcileScene, hp]

/-- C4: the full-generation reconciler returns a Scene list exactly when
the parsed reply's `scenes` field is an array, and raises its
malformed-response error exactly when that field is absent or not an
array. -/
theorem reconciler_malformed (settings : GenerationSettings) (now : Nat)
    (field : ScenesField) :
    ((∃ l, generateFullScriptAnalysis settings now field = .ok l) ↔
      ∃ scenes, field = ScenesField.array scenes) ∧
    ((generateFullScriptAnalysis settings now field = .error .invalidStructure) ↔
      ∀ scenes, field ≠ ScenesField.array scenes) := by
  cases field <;> simp [generateFullScriptAnalysis]

/-- C5: the rendered script text consists exactly of the rows with
non-blank content, in order (the filtered row list is a sublist of the
input), one row per line, each rendered as `[timestamp] content` when the
row's timestamp is non-blank and as the bare content otherwise. -/
theorem request_builder_rows (rows : List ScriptRow) :
    scriptTextLines rows =
      (rows.filter fun r => r.content.trim != "").map specRenderRow ∧
    (rows.filter fun r => r.content.trim != "").Sublist rows ∧
    buildScriptText rows = String.intercalate "\n" (scriptTextLines rows) := by
  refine ⟨?_, List.filter_sublist _, rfl⟩
  unfold scriptTextLines
  apply List.map_congr_left
  intro r _
  unfold renderScriptRow specRenderRow
  by_cases h : r.timestamp.trim = "" <;> simp [h]

/-- C6: appending a snapshot prepends the new item and truncates the log
to at most 30 entries; appending to a log holding exactly 30 items yields
exactly 30 items with the oldest dropped and all newer items kept in
order. -/
theorem history_truncation (h : List HistoryItem) (item : HistoryItem) :
    saveToHistory h item = item :: h.take 29 ∧
    (saveToHistory h item).length = min (h.length + 1) 30 ∧
    (h.length = 30 →
      (saveToHistory h item).length = 30 ∧
      saveToHistory h item = item :: h.dropLast) := by
  refine ⟨rfl, ?_, fun h30 => ⟨?_, ?_⟩⟩
  · simp [saveToHistory]
    omega
  · simp [saveToHistory, h30]
  · simp [saveToHistory, List.dropLast_eq_take, h30]

theorem history_truncation_witness :
    (saveToHistory (List.replicate 30 item0) item0).length = 30 ∧
    saveToHistory (List.replicate 30 item0) item0 =
      item0 :: (List.replicate 30 item0).dropLast :=
  (history_truncation (List.replicate 30 item0) item0).2.2 (by simp)

/-- C7: the item appended from the current rows, settings and scenes is
the head of the updated history, and restoring it reproduces exactly the
rows, settings and scenes that were active at save time. -/
theorem history_roundtrip (h : List HistoryItem) (now : Nat)
    (src : HistorySource) (rows : List ScriptRow)
    (settings : GenerationSettings) (scenes : List SceneData) :
    (saveToHistory h (mkHistoryItem now src rows settings scenes)).head? =
      some (mkHistoryItem now src rows settings scenes) ∧
    (loadHistoryItem (mkHistoryItem now src rows settings scenes)).rows = rows ∧
    (loadHistoryItem (mkHistoryItem now src rows settings scenes)).settings =
      settings ∧
    (loadHistoryItem (mkHistoryItem now src rows settings scenes)).scenes =
      scenes :=
  ⟨rfl, rfl, rfl, rfl⟩

/-- C8: after a failed single-scene regeneration the store has the same
length, every scene whose id differs from the target is unchanged at its
position, and the target scene keeps every field except that
isRegenerating is false. -/
theorem regeneration_failure_frame (scenes : List SceneData) (tid : String) :
    (regenerateSceneFailure scenes tid).length = scenes.length ∧
    ∀ i : Nat, ∀ s : SceneData, scenes[i]? = some s →
      (s.id ≠ tid → (regenerateSceneFailure scenes tid)[i]? = some s) ∧
      (s.id = tid →
        (regenerateSceneFailure scenes tid)[i]? =
          some { s with isRegenerating := false }) := by
  have hmap : regenerateSceneFailure scenes tid =
      scenes.map fun s =>
        if s.id = tid then { s with isRegenerating := false } else s := by
    unfold regenerateSceneFailure
    rw [List.map_map]
    apply List.map_congr_left
    intro s _
    by_cases h : s.id = tid <;> simp [h]
  constructor
  · rw [hmap]; simp
  · intro i s hs
    constructor
    · intro hne
      rw [hmap, List.getElem?_map, hs]
      simp [hne]
    · intro heq
      rw [hmap, List.getElem?_map, hs]
      simp [heq]

theorem regeneration_failure_frame_witness :
    (regenerateSceneFailure [scene0, sceneA] "s1")[0]? =
      some { scene0 with isRegenerating := false } ∧
    (regenerateSceneFailure [scene0, sceneA] "s1")[1]? = some sceneA :=
  ⟨((regeneration_failure_frame [scene0, sceneA] "s1").2 0 scene0 rfl).2
      (by decide),
   ((regeneration_failure_frame [scene0, sceneA] "s1").2 1 sceneA rfl).1
      (by decide)⟩

/-- C9 counterexample: a failing store write is not caught by the history
layer; the storage error propagates out of both the append and the delete
operation instead of being downgraded to "no history available". -/
theorem history_write_failure_propagates :
    (saveToHistoryPersist (fun _ => Except.error "QuotaExceededError")
        (fun _ => "[]") [] item0).2 = Except.error "QuotaExceededError" ∧
    (deleteHistoryItemPersist (fun _ => Except.error "QuotaExceededError")
        (fun _ => "[]") [item0] "0").2 = Except.error "QuotaExceededError" :=
  ⟨rfl, rfl⟩

/-- C9 amended: the startup history read never fails — a missing payload
or a parse failure is downgraded to the empty history — while the append
and delete write paths do not catch store failures: the in-memory update
still applies, and a failing store write propagates its error to the
caller. -/
theorem history_persistence_amended (stored : String)
    (parse : String → Except String (List HistoryItem))
    (setItem : String → Except String Unit)
    (serialize : List HistoryItem → String)
    (h : List HistoryItem) (item : HistoryItem) (id e : String) :
    loadHistoryOnMount none parse = [] ∧
    (parse stored = Except.error e → loadHistoryOnMount (some stored) parse = []) ∧
    (saveToHistoryPersist setItem serialize h item).1 = saveToHistory h item ∧
    (setItem (serialize (saveToHistory h item)) = Except.error e →
      (saveToHistoryPersist setItem serialize h item).2 = Except.error e) ∧
    (setItem (serialize (h.filter fun i => i.id != id)) = Except.error e →
      (deleteHistoryItemPersist setItem serialize h id).2 = Except.error e) := by
  refine ⟨rfl, ?_, rfl, ?_, ?_⟩
  · intro hp; simp [loadHistoryOnMount, hp]
  · intro hw; simpa [saveToHistoryPersist] using hw
  · intro hw; simpa [deleteHistoryItemPersist] using hw

theorem history_persistence_amended_witness :
    loadHistoryOnMount (some "x") (fun _ => Except.error "SyntaxError") = [] ∧
    (saveToHistoryPersist (fun _ => Except.error "QuotaExceededError")
        (fun _ => "[]") [item0] item0).2 = Except.error "QuotaExceededError" :=
  ⟨(history_persistence_amended "x" (fun _ => Except.error "SyntaxError")
      (fun _ => Except.error "QuotaExceededError") (fun _ => "[]")
      [item0] item0 "0" "SyntaxError").2.1 rfl,
   (history_persistence_amended "x" (fun _ => Except.error "SyntaxError")
      (fun _ => Except.error "QuotaExceededError") (fun _ => "[]")
      [item0] item0 "0" "QuotaExceededError").2.2.2.1 rfl⟩

/-- C10: the manual image-count update keeps length and order, sets only
imageCount on the scene with the target id (all other fields unchanged),
leaves every other scene entirely unchanged, and is the identity when no
scene has the target id. -/
theorem update_image_count_frame (scenes : List SceneData) (tid : String)
    (count : Nat) :
    (handleUpdateImageCount scenes tid count).length = scenes.length ∧
    (∀ i : Nat, ∀ s : SceneData, scenes[i]? = some s →
      (s.id = tid →
        (handleUpdateImageCount scenes tid count)[i]? =
          some { s with imageCount := count }) ∧
      (s.id ≠ tid → (handleUpdateImageCount scenes tid count)[i]? = some s)) ∧
    ((∀ s ∈ scenes, s.id ≠ tid) →
      handleUpdateImageCount scenes tid count = scenes) := by
  refine ⟨by simp [handleUpdateImageCount], ?_, ?_⟩
  · intro i s hs
    constructor
    · intro heq
      unfold handleUpdateImageCount
      rw [List.getElem?_map, hs]
      simp [heq]
    · intro hne
      unfold handleUpdateImageCount
      rw [List.getElem?_map, hs]
      simp [hne]
  · intro hall
    unfold handleUpdateImageCount
    have hcg : ∀ s ∈ scenes,
        (if s.id = tid then { s with imageCount := count } else s) = s := by
      intro s hs
      simp [hall s hs]
    rw [List.map_congr_left hcg]
    exact List.map_id' scenes

theorem update_image_count_frame_witness :
    (handleUpdateImageCount [scene0, sceneA] "s1" 8)[0]? =
      some { scene0 with imageCount := 8 } ∧
    handleUpdateImageCount [scene0, sceneA] "zzz" 8 = [scene0, sceneA] :=
  ⟨((update_image_count_frame [scene0, sceneA] "s1" 8).2.1 0 scene0 rfl).1
      (by decide),
   (update_image_count_frame [scene0, sceneA] "zzz" 8).2.2 (by decide)⟩

end Script2Prompt

